import Mathlib

/-!
Verification of the RAMP-UA activity-based hazard propagation engine.

The engine lives in `microsim/microsim_model.py` (class `Microsim`); that file
is not part of the sources available here, so every definition below is
modelled from the specification of the engine, with its observable behaviour
pinned by the repository's own test suite (`tests/test_microsim_model.py`).
Exact rational arithmetic stands in for Python floats: every scenario exercised
by the tests uses decimal constants whose arithmetic the tests compare with
`==`, so the idealised semantics is rational.
-/

namespace RampUA

/-- Modelled from the spec: the closed enumeration of activity kinds
(`ColumnNames.Activities.ALL` in the tests): home, work, primary school,
secondary school, retail. -/
inductive ActivityKind where
  | home
  | work
  | primarySchool
  | secondarySchool
  | retail
deriving DecidableEq, Repr

/-- Modelled from the spec: the list of all activity kinds, mirroring
`ColumnNames.Activities.ALL`. -/
def ActivityKind.all : List ActivityKind :=
  [.home, .work, .primarySchool, .secondarySchool, .retail]

/-- Modelled from the spec: the closed enumeration of disease statuses
(`ColumnNames.DiseaseStatuses`). -/
inductive DiseaseStatus where
  | susceptible
  | presymptomatic
  | asymptomatic
  | symptomatic
  | recovered
  | dead
deriving DecidableEq, Repr

/-- Modelled from the spec: the statuses that carry hazard by default
(susceptible, recovered and dead "contribute nothing"). -/
def DiseaseStatus.infectious : DiseaseStatus → Bool
  | .presymptomatic => true
  | .asymptomatic => true
  | .symptomatic => true
  | _ => false

/-- Modelled from the spec: one row of the individuals table.  Per activity
kind it stores the visited venue ids, the parallel flow weights, the current
duration and the pre-disease initial duration; plus the disease status, the
one-shot status-changed flag and the per-step risk accumulator. -/
structure Individual where
  status : DiseaseStatus
  status_changed : Bool
  venues : ActivityKind → List Nat
  flows : ActivityKind → List ℚ
  duration : ActivityKind → ℚ
  duration_initial : ActivityKind → ℚ
  current_risk : ℚ

/-- Modelled from the spec: the hazard configuration, two externally supplied
association lists (`hazard_individual_multipliers` keyed by disease status and
`hazard_location_multipliers` keyed by activity kind), both possibly empty. -/
structure HazardConfig where
  hazard_individual_multipliers : List (DiseaseStatus × ℚ)
  hazard_location_multipliers : List (ActivityKind × ℚ)

/-- Association-list lookup used for both hazard dictionaries. -/
def lookupKey {α : Type} [DecidableEq α] : List (α × ℚ) → α → Option ℚ
  | [], _ => none
  | (a, m) :: rest, k => if a = k then some m else lookupKey rest k

/-- Modelled from the spec: the individual hazard multiplier for a status.
The tests pin the two regimes: with a non-empty dictionary the configured
value is used and an absent status contributes no hazard (multiplier 0); with
an empty dictionary (`test_step` runs this way) each infectious individual
still contributes with the neutral multiplier 1 while susceptible, recovered
and dead individuals contribute 0. -/
def hazard_individual (cfg : HazardConfig) (s : DiseaseStatus) : ℚ :=
  if cfg.hazard_individual_multipliers.isEmpty then
    (if s.infectious then 1 else 0)
  else
    match lookupKey cfg.hazard_individual_multipliers s with
    | some m => m
    | none => 0

/-- Modelled from the spec: the location hazard multiplier for an activity
kind; an absent key (in particular an empty dictionary) is neutral, 1. -/
def hazard_location (cfg : HazardConfig) (k : ActivityKind) : ℚ :=
  match lookupKey cfg.hazard_location_multipliers k with
  | some m => m
  | none => 1

/-- Modelled from the spec: the total flow weight of an individual to venue
`v` for activity kind `k`, read off the parallel `venues`/`flows` lists. -/
def flowTo (i : Individual) (k : ActivityKind) (v : Nat) : ℚ :=
  (((i.venues k).zip (i.flows k)).map (fun p => if p.1 = v then p.2 else 0)).sum

/-- Modelled from the spec: the danger of venue `v` of kind `k`, the snapshot
sum over all individuals of
status multiplier x duration x flow weight x location multiplier
(`update_venue_danger_and_risks`, danger phase). -/
def update_venue_danger (cfg : HazardConfig) (inds : List Individual)
    (k : ActivityKind) (v : Nat) : ℚ :=
  (inds.map (fun i =>
    hazard_individual cfg i.status * i.duration k * flowTo i k v *
      hazard_location cfg k)).sum

/-- Modelled from the spec: one individual's risk, recomputed from scratch as
the sum over activity kinds of duration x (flow-weighted danger of the visited
venues) (`update_venue_danger_and_risks`, risk phase). -/
def update_individual_risk (cfg : HazardConfig) (inds : List Individual)
    (i : Individual) : ℚ :=
  (ActivityKind.all.map (fun k =>
    i.duration k *
      (((i.venues k).zip (i.flows k)).map
        (fun p => p.2 * update_venue_danger cfg inds k p.1)).sum)).sum

/-- Modelled from the spec: the whole simulation state the step acts on: the
individuals table and, per activity kind, the venue danger scores. -/
structure SimState where
  individuals : List Individual
  danger : ActivityKind → Nat → ℚ

/-- Modelled from the spec: one step of `Microsim.step` restricted to the
danger and risk phases: every venue's danger is fully recomputed from the
current statuses and durations (phase 1), then every individual's
`current_risk` is reset and recomputed from those dangers (phase 2).  Nothing
carries over from the previous step. -/
def step (cfg : HazardConfig) (s : SimState) : SimState :=
  { individuals := s.individuals.map (fun i =>
      { i with current_risk := update_individual_risk cfg s.individuals i }),
    danger := fun k v => update_venue_danger cfg s.individuals k v }

/-- Modelled from the spec: the behaviour-change pass
(`change_behaviour_with_disease`) applied to one individual, given the
configured reduction fraction `rho`.  Only individuals whose `status_changed`
flag is set are touched.  On onset of the symptomatic state every non-home
duration is reduced by the fraction of its *initial* value and the freed time
moves into the home duration; on any other status (transition out of the
behaviour-changing state) every duration is restored to its initial value.
The flag is consumed either way. -/
def change_behaviour_with_disease (rho : ℚ) (i : Individual) : Individual :=
  if i.status_changed then
    if i.status = .symptomatic then
      { i with
        duration := fun k =>
          if k = .home then
            i.duration_initial .home +
              rho * ((ActivityKind.all.filter (fun a => a ≠ .home)).map
                i.duration_initial).sum
          else
            (1 - rho) * i.duration_initial k,
        status_changed := false }
    else
      { i with duration := i.duration_initial, status_changed := false }
  else i

/-- A dynamically typed argument to `Microsim._normalise`: the Python function
accepts either a bare number or a list of numbers. -/
inductive PyValue where
  | num (x : ℚ)
  | list (xs : List ℚ)

/-- Modelled from the spec: `Microsim._normalise`.  A bare number is a data
error; a single-element list becomes `[1.0]` whatever its element; a longer
list is rescaled by its sum (`test__normalise` pins `[4, 6]` to
`[0.4, 0.6]`). -/
def normalise : PyValue → Except String (List ℚ)
  | .num _ => .error "can only normalise a list"
  | .list xs =>
    if xs.length = 1 then .ok [1]
    else .ok (xs.map (fun x => x / xs.sum))

/-- Modelled from the spec: the per-instance pseudo-random generator step; any
injective transition function represents the deterministic generator. -/
def rngStep (s : Nat) : Nat := 6364136223846793005 * s + 1442695040888963407

/-- Modelled from the spec: the seed a simulation instance is constructed
with.  An explicit numeric seed is used as given; otherwise the seed combines
the wall-clock time with a process-unique identifier, injectively. -/
def instanceSeed (explicitSeed : Option Nat) (time pid : Nat) : Nat :=
  match explicitSeed with
  | some s => s
  | none => Nat.pair time pid

/-- Modelled from the spec: the sequence of draws of a generator seeded with
`seed`: the n-th draw is the generator state after n+1 steps. -/
def drawSequence (seed : Nat) : Nat → Nat :=
  fun n => rngStep^[n + 1] seed

/-- An individual who visits a single home venue `house` with flow weight 1
and spends duration `d` there, and nothing anywhere else; used by the
reference test scenes (`test_hazard_multipliers`, `test_step`). -/
def personHome (st : DiseaseStatus) (house : Nat) (d : ℚ) : Individual :=
  { status := st
    status_changed := false
    venues := fun k => if k = .home then [house] else []
    flows := fun k => if k = .home then [1] else []
    duration := fun k => if k = .home then d else 0
    duration_initial := fun k => if k = .home then d else 0
    current_risk := 0 }

/-- The hazard configuration of `test_hazard_multipliers`: individual
multipliers presymptomatic 1, asymptomatic 2, symptomatic 3; location
multiplier 5 for home and 1 for every other activity kind. -/
def cfgRef : HazardConfig :=
  { hazard_individual_multipliers :=
      [(.presymptomatic, 1), (.asymptomatic, 2), (.symptomatic, 3)]
    hazard_location_multipliers :=
      [(.home, 5), (.work, 1), (.primarySchool, 1), (.secondarySchool, 1),
        (.retail, 1)] }

/-- The reference scene of claim C1: two symptomatic co-residents of
household 0 spending the whole day at home, and a susceptible third person
alone in household 1. -/
def stateRef : SimState :=
  { individuals :=
      [personHome .symptomatic 0 1, personHome .symptomatic 0 1,
        personHome .susceptible 1 1]
    danger := fun _ _ => 0 }

/-- The hazard configuration of the multi-activity part of
`test_hazard_multipliers`: the same individual multipliers, with location
multipliers 5.35 for home, 2.9 for primary school and 1 elsewhere. -/
def cfgMulti : HazardConfig :=
  { hazard_individual_multipliers :=
      [(.presymptomatic, 1), (.asymptomatic, 2), (.symptomatic, 3)]
    hazard_location_multipliers :=
      [(.home, 5.35), (.work, 1), (.primarySchool, 2.9), (.secondarySchool, 1),
        (.retail, 1)] }

/-- An individual who splits the day between home venue `house` (duration
`dh`) and primary-school venue `school` (duration `ds`), with flow weight 1 to
each. -/
def personHomeSchool (st : DiseaseStatus) (house school : Nat) (dh ds : ℚ) :
    Individual :=
  { status := st
    status_changed := false
    venues := fun k =>
      if k = .home then [house] else if k = .primarySchool then [school] else []
    flows := fun k =>
      if k = .home then [1] else if k = .primarySchool then [1] else []
    duration := fun k =>
      if k = .home then dh else if k = .primarySchool then ds else 0
    duration_initial := fun k =>
      if k = .home then dh else if k = .primarySchool then ds else 0
    current_risk := 0 }

/-- The reference scene of claim C4: two asymptomatic co-residents of
household 0 splitting time 0.5/0.5 between home and the shared school 0, and a
susceptible third person in household 1. -/
def stateMulti : SimState :=
  { individuals :=
      [personHomeSchool .asymptomatic 0 0 0.5 0.5,
        personHomeSchool .asymptomatic 0 0 0.5 0.5,
        personHome .susceptible 1 1]
    danger := fun _ _ => 0 }

/-- The flow weight of a `personHome` individual: 1 exactly to their own home
venue under the home activity, 0 everywhere else. -/
theorem flowTo_personHome (st : DiseaseStatus) (house : Nat) (d : ℚ)
    (k : ActivityKind) (v : Nat) :
    flowTo (personHome st house d) k v =
      if k = .home ∧ house = v then 1 else 0 := by
  by_cases hk : k = .home <;> by_cases hv : house = v <;>
    simp [flowTo, personHome, hk, hv]

/-- A venue accumulates no danger when every individual either carries no
hazard, spends no time on the activity, or has no flow to the venue. -/
theorem update_venue_danger_eq_zero (cfg : HazardConfig)
    (inds : List Individual) (k : ActivityKind) (v : Nat)
    (h : ∀ i ∈ inds, hazard_individual cfg i.status = 0 ∨ i.duration k = 0 ∨
      flowTo i k v = 0) :
    update_venue_danger cfg inds k v = 0 := by
  induction inds with
  | nil => rfl
  | cons a as ih =>
    have ha := h a (List.mem_cons_self a as)
    have hrest := ih (fun i hi => h i (List.mem_cons_of_mem a hi))
    simp only [update_venue_danger, List.map_cons, List.sum_cons] at hrest ⊢
    rcases ha with h0 | h0 | h0 <;> rw [h0] <;> simp [hrest]

/-- An individual accrues no risk when, for every activity kind, they either
spend no time on it or every venue they visit for it has danger zero. -/
theorem update_individual_risk_eq_zero (cfg : HazardConfig)
    (inds : List Individual) (i : Individual)
    (h : ∀ k : ActivityKind, i.duration k = 0 ∨
      ∀ v ∈ i.venues k, update_venue_danger cfg inds k v = 0) :
    update_individual_risk cfg inds i = 0 := by
  apply List.sum_eq_zero
  intro x hx
  simp only [List.mem_map] at hx
  obtain ⟨k, _, rfl⟩ := hx
  rcases h k with h0 | h0
  · rw [h0, zero_mul]
  · have : (((i.venues k).zip (i.flows k)).map
        (fun p => p.2 * update_venue_danger cfg inds k p.1)).sum = 0 := by
      apply List.sum_eq_zero
      intro y hy
      simp only [List.mem_map] at hy
      obtain ⟨p, hp, rfl⟩ := hy
      rw [h0 p.1 (List.of_mem_zip hp).1, mul_zero]
    rw [this, mul_zero]

/-- C1: in the reference scene of two co-resident symptomatic individuals who
spend the whole day at home, with individual multipliers presymptomatic 1,
asymptomatic 2, symptomatic 3 and a home location multiplier of 5, one step
gives the shared household danger 2 x 3 x 1 x 5 = 30 and each co-resident a
current risk of 30, while every other venue has danger 0 and every other
individual has risk 0. -/
theorem claim_C1 :
    (step cfgRef stateRef).danger .home 0 = 30 ∧
    (∀ v : Nat, v ≠ 0 → ∀ k : ActivityKind,
      (step cfgRef stateRef).danger k v = 0) ∧
    ((step cfgRef stateRef).individuals.map Individual.current_risk) =
      [30, 30, 0] := by
  refine ⟨?_, ?_, ?_⟩
  · simp [step, update_venue_danger, flowTo, hazard_individual,
      hazard_location, lookupKey, cfgRef, stateRef, personHome]
    norm_num
  · intro v hv k
    apply update_venue_danger_eq_zero
    intro i hi
    simp only [stateRef, List.mem_cons, List.not_mem_nil, or_false] at hi
    rcases hi with rfl | rfl | rfl
    · exact Or.inr (Or.inr (by
        rw [flowTo_personHome, if_neg (fun hc => hv hc.2.symm)]))
    · exact Or.inr (Or.inr (by
        rw [flowTo_personHome, if_neg (fun hc => hv hc.2.symm)]))
    · exact Or.inl rfl
  · simp [step, update_individual_risk, update_venue_danger, flowTo,
      hazard_individual, hazard_location, lookupKey, cfgRef, stateRef,
      personHome, ActivityKind.all]
    norm_num

/-- Witness for C1 at the concrete venue 1. -/
theorem claim_C1_witness :
    (step cfgRef stateRef).danger .home 0 = 30 ∧
    (step cfgRef stateRef).danger .home 1 = 0 ∧
    ((step cfgRef stateRef).individuals.map Individual.current_risk) =
      [30, 30, 0] :=
  ⟨claim_C1.1, claim_C1.2.1 1 (by decide) .home, claim_C1.2.2⟩

/-- C4: in the multi-activity scene of two asymptomatic co-residents splitting
0.5/0.5 between home (multiplier 5.35) and a shared school (multiplier 2.9),
with asymptomatic individual multiplier 2, one step gives home danger
2 x 2 x 0.5 x 5.35 = 10.7, school danger 2 x 2 x 0.5 x 2.9 = 5.8, and each
co-resident the aggregate risk 0.5 x 10.7 + 0.5 x 5.8 = 8.25. -/
theorem claim_C4 :
    (step cfgMulti stateMulti).danger .home 0 = 10.7 ∧
    (step cfgMulti stateMulti).danger .primarySchool 0 = 5.8 ∧
    ((step cfgMulti stateMulti).individuals.map Individual.current_risk) =
      [8.25, 8.25, 0] := by
  refine ⟨?_, ?_, ?_⟩
  · simp [step, update_venue_danger, flowTo, hazard_individual,
      hazard_location, lookupKey, cfgMulti, stateMulti, personHomeSchool,
      personHome]
    norm_num
  · simp [step, update_venue_danger, flowTo, hazard_individual,
      hazard_location, lookupKey, cfgMulti, stateMulti, personHomeSchool,
      personHome]
    norm_num
  · simp [step, update_individual_risk, update_venue_danger, flowTo,
      hazard_individual, hazard_location, lookupKey, cfgMulti, stateMulti,
      personHomeSchool, personHome, ActivityKind.all]
    norm_num

/-- Venue danger only reads statuses, durations and flows, so recomputing it
on the individuals produced by a step (which only rewrote their risk
accumulators) gives the same value. -/
theorem update_venue_danger_after_step (cfg : HazardConfig) (s : SimState)
    (k : ActivityKind) (v : Nat) :
    update_venue_danger cfg (step cfg s).individuals k v =
      update_venue_danger cfg s.individuals k v := by
  simp only [step, update_venue_danger, List.map_map]
  rfl

/-- Individual risk recomputed on the individuals produced by a step equals
the risk computed on the original individuals. -/
theorem update_individual_risk_after_step (cfg : HazardConfig) (s : SimState)
    (j : Individual) :
    update_individual_risk cfg (step cfg s).individuals j =
      update_individual_risk cfg s.individuals j := by
  simp only [update_individual_risk, update_venue_danger_after_step]

/-- C2: the danger and risk phases are idempotent: running the step a second
time with no change to any status or duration in between reproduces exactly
the same venue dangers and individual risks; nothing accumulates across
days. -/
theorem claim_C2 (cfg : HazardConfig) (s : SimState) :
    step cfg (step cfg s) = step cfg s := by
  show SimState.mk _ _ = SimState.mk _ _
  congr 1
  · show (step cfg s).individuals.map _ = s.individuals.map _
    simp only [step, List.map_map]
    refine List.map_congr_left (fun i _ => ?_)
    show Individual.mk _ _ _ _ _ _ _ = Individual.mk _ _ _ _ _ _ _
    congr 1
    exact update_individual_risk_after_step cfg s i
  · funext k v
    exact update_venue_danger_after_step cfg s k v

/-- The hazard configuration the test fixture runs with: both multiplier
dictionaries empty (`test_step`). -/
def cfgEmpty : HazardConfig :=
  { hazard_individual_multipliers := [], hazard_location_multipliers := [] }

/-- The scene of the zero-duration phase of `test_step`: the only hazardous
individual (symptomatic) has set every activity duration to 0, their
susceptible co-resident still spends the day at home, and a susceptible third
person lives in household 1. -/
def stateZero : SimState :=
  { individuals :=
      [personHome .symptomatic 0 0, personHome .susceptible 0 1,
        personHome .susceptible 1 1]
    danger := fun _ _ => 0 }

/-- C3: after a step, a venue reached with nonzero duration and flow by no
nonzero-hazard individual has danger exactly 0, and an individual with zero
aggregate exposure (every visited venue dangerless, or no time spent) has
current risk exactly 0; in particular, when the only hazardous individual
sets every duration to 0, every venue danger and every current risk is 0. -/
theorem claim_C3 :
    (∀ (cfg : HazardConfig) (s : SimState) (k : ActivityKind) (v : Nat),
      (∀ i ∈ s.individuals, hazard_individual cfg i.status = 0 ∨
        i.duration k = 0 ∨ flowTo i k v = 0) →
      (step cfg s).danger k v = 0) ∧
    (∀ (cfg : HazardConfig) (s : SimState),
      ∀ j ∈ (step cfg s).individuals,
      (∀ k : ActivityKind, j.duration k = 0 ∨
        ∀ v ∈ j.venues k, (step cfg s).danger k v = 0) →
      j.current_risk = 0) ∧
    (∀ (k : ActivityKind) (v : Nat), (step cfgEmpty stateZero).danger k v = 0) ∧
    (∀ j ∈ (step cfgEmpty stateZero).individuals, j.current_risk = 0) := by
  have hdanger : ∀ (cfg : HazardConfig) (s : SimState) (k : ActivityKind)
      (v : Nat),
      (∀ i ∈ s.individuals, hazard_individual cfg i.status = 0 ∨
        i.duration k = 0 ∨ flowTo i k v = 0) →
      (step cfg s).danger k v = 0 :=
    fun cfg s k v h => update_venue_danger_eq_zero cfg s.individuals k v h
  have hrisk : ∀ (cfg : HazardConfig) (s : SimState),
      ∀ j ∈ (step cfg s).individuals,
      (∀ k : ActivityKind, j.duration k = 0 ∨
        ∀ v ∈ j.venues k, (step cfg s).danger k v = 0) →
      j.current_risk = 0 := by
    intro cfg s j hj h
    simp only [step, List.mem_map] at hj
    obtain ⟨i, hi, rfl⟩ := hj
    show update_individual_risk cfg s.individuals i = 0
    apply update_individual_risk_eq_zero
    intro k
    rcases h k with h0 | h0
    · exact Or.inl h0
    · exact Or.inr (fun v hv => h0 v hv)
  have hz : ∀ (k : ActivityKind) (v : Nat),
      (step cfgEmpty stateZero).danger k v = 0 := by
    intro k v
    apply hdanger
    intro i hi
    simp only [stateZero, List.mem_cons, List.not_mem_nil, or_false] at hi
    rcases hi with rfl | rfl | rfl
    · exact Or.inr (Or.inl (by simp [personHome]))
    · exact Or.inl rfl
    · exact Or.inl rfl
  refine ⟨hdanger, hrisk, hz, ?_⟩
  intro j hj
  exact hrisk cfgEmpty stateZero j hj (fun k => Or.inr (fun v _ => hz k v))

/-- Witness for C3 at the empty-configuration zero-duration scene. -/
theorem claim_C3_witness :
    (step cfgEmpty stateZero).danger .home 0 = 0 ∧
    ((step cfgEmpty stateZero).individuals.map Individual.current_risk) =
      [0, 0, 0] := by
  refine ⟨claim_C3.1 cfgEmpty stateZero .home 0 ?_, ?_⟩
  · intro i hi
    simp only [stateZero, List.mem_cons, List.not_mem_nil, or_false] at hi
    rcases hi with rfl | rfl | rfl
    · exact Or.inr (Or.inl (by simp [personHome]))
    · exact Or.inl rfl
    · exact Or.inl rfl
  · simp [step, update_individual_risk, update_venue_danger, flowTo,
      hazard_individual, hazard_location, lookupKey, cfgEmpty, stateZero,
      personHome, ActivityKind.all, DiseaseStatus.infectious]

/-- A recovered individual whose durations still sit at reduced values and
whose status-changed flag has been re-armed; used to witness the restore
behaviour. -/
def personRecovered : Individual :=
  { status := .recovered
    status_changed := true
    venues := fun _ => []
    flows := fun _ => []
    duration := fun k => if k = .home then 0.9 else 0.025
    duration_initial := fun k => if k = .home then 0.6 else 0.1
    current_risk := 0 }

/-- A symptomatic individual with the status-changed flag set; used to witness
the reduction behaviour. -/
def personSick : Individual :=
  { status := .symptomatic
    status_changed := true
    venues := fun _ => []
    flows := fun _ => []
    duration := fun k => if k = .home then 0.6 else 0.1
    duration_initial := fun k => if k = .home then 0.6 else 0.1
    current_risk := 0 }

/-- C5: for an individual whose status moved out of the symptomatic state with
the status-changed flag set, the behaviour-change pass restores every activity
duration to exactly its initial value. -/
theorem claim_C5 (rho : ℚ) (i : Individual) (hc : i.status_changed = true)
    (hs : i.status ≠ .symptomatic) :
    ∀ k : ActivityKind,
      (change_behaviour_with_disease rho i).duration k =
        i.duration_initial k := by
  intro k
  simp [change_behaviour_with_disease, hc, hs]

/-- Witness for C5: a recovered individual with reduced durations gets every
duration restored. -/
theorem claim_C5_witness :
    (change_behaviour_with_disease 0.5 personRecovered).duration .retail =
      personRecovered.duration_initial .retail ∧
    (change_behaviour_with_disease 0.5 personRecovered).duration .home =
      personRecovered.duration_initial .home :=
  ⟨claim_C5 0.5 personRecovered rfl (by decide) .retail,
    claim_C5 0.5 personRecovered rfl (by decide) .home⟩

/-- C6: the symptomatic reduction is computed from the initial durations, so
re-arming the flag and running the pass again while still symptomatic leaves
every duration exactly where the first trigger put it. -/
theorem claim_C6 (rho : ℚ) (i : Individual) (hc : i.status_changed = true)
    (hs : i.status = .symptomatic) :
    ∀ k : ActivityKind,
      (change_behaviour_with_disease rho
        { change_behaviour_with_disease rho i with
            status_changed := true }).duration k =
      (change_behaviour_with_disease rho i).duration k := by
  intro k
  simp [change_behaviour_with_disease, hc, hs]

/-- Witness for C6: triggering the symptomatic reduction twice leaves the
retail duration where the first trigger put it. -/
theorem claim_C6_witness :
    (change_behaviour_with_disease 0.5
      { change_behaviour_with_disease 0.5 personSick with
          status_changed := true }).duration .retail =
      (change_behaviour_with_disease 0.5 personSick).duration .retail :=
  claim_C6 0.5 personSick rfl rfl .retail

/-- The scene of the first phase of `test_step`: one symptomatic individual
at home all day with a susceptible co-resident, and a susceptible third person
in household 1; the hazard dictionaries are empty. -/
def stateOne : SimState :=
  { individuals :=
      [personHome .symptomatic 0 1, personHome .susceptible 0 1,
        personHome .susceptible 1 1]
    danger := fun _ _ => 0 }

/-- Lookup misses every key that names no entry of the association list. -/
theorem lookupKey_eq_none {α : Type} [DecidableEq α] (l : List (α × ℚ))
    (k : α) (h : ∀ p ∈ l, p.1 ≠ k) : lookupKey l k = none := by
  induction l with
  | nil => rfl
  | cons a as ih =>
    obtain ⟨a1, a2⟩ := a
    have h1 := h (a1, a2) (List.mem_cons_self _ as)
    simp only [lookupKey, if_neg h1]
    exact ih (fun p hp => h p (List.mem_cons_of_mem _ hp))

/-- Counterexample to C7 as stated: with both hazard dictionaries empty, a
symptomatic individual does not contribute 0 danger — in the `test_step`
scene their household accumulates danger 1. -/
theorem claim_C7_counterexample :
    (step cfgEmpty stateOne).danger .home 0 = 1 ∧ (1 : ℚ) ≠ 0 := by
  constructor
  · simp [step, update_venue_danger, flowTo, hazard_individual,
      hazard_location, lookupKey, cfgEmpty, stateOne, personHome,
      DiseaseStatus.infectious]
  · norm_num

/-- C7 (amended): absent keys are not errors — a status absent from a
NON-EMPTY status dictionary has multiplier 0, an activity kind absent from
the activity dictionary (empty or not) has multiplier 1; but when the status
dictionary is completely empty every infectious status (symptomatic included)
falls back to the neutral multiplier 1, not 0, and the step completes, giving
the `test_step` scene household danger 1 and risks 1, 1, 0. -/
theorem claim_C7 :
    (∀ (cfg : HazardConfig) (st : DiseaseStatus),
      cfg.hazard_individual_multipliers ≠ [] →
      (∀ p ∈ cfg.hazard_individual_multipliers, p.1 ≠ st) →
      hazard_individual cfg st = 0) ∧
    (∀ (cfg : HazardConfig) (k : ActivityKind),
      (∀ p ∈ cfg.hazard_location_multipliers, p.1 ≠ k) →
      hazard_location cfg k = 1) ∧
    (∀ st : DiseaseStatus, st.infectious = true →
      hazard_individual cfgEmpty st = 1) ∧
    ((step cfgEmpty stateOne).danger .home 0 = 1 ∧
      ((step cfgEmpty stateOne).individuals.map Individual.current_risk) =
        [1, 1, 0]) := by
  refine ⟨?_, ?_, ?_, ?_, ?_⟩
  · intro cfg st hne habs
    have hne2 : cfg.hazard_individual_multipliers.isEmpty = false := by
      rcases hl : cfg.hazard_individual_multipliers with _ | ⟨a, as⟩
      · exact absurd hl hne
      · rfl
    simp [hazard_individual, hne2, lookupKey_eq_none _ _ habs]
  · intro cfg k habs
    simp [hazard_location, lookupKey_eq_none _ _ habs]
  · intro st h
    simp [hazard_individual, cfgEmpty, h]
  · simp [step, update_venue_danger, flowTo, hazard_individual,
      hazard_location, lookupKey, cfgEmpty, stateOne, personHome,
      DiseaseStatus.infectious]
  · simp [step, update_individual_risk, update_venue_danger, flowTo,
      hazard_individual, hazard_location, lookupKey, cfgEmpty, stateOne,
      personHome, ActivityKind.all, DiseaseStatus.infectious]

/-- Witness for C7: recovered is absent from the reference dictionary and gets
multiplier 0; home is absent from the empty location dictionary and gets
multiplier 1; symptomatic under the empty status dictionary gets 1. -/
theorem claim_C7_witness :
    hazard_individual cfgRef .recovered = 0 ∧
    hazard_location cfgEmpty .home = 1 ∧
    hazard_individual cfgEmpty .symptomatic = 1 :=
  ⟨claim_C7.1 cfgRef .recovered (by decide) (by decide),
    claim_C7.2.1 cfgEmpty .home (by decide),
    claim_C7.2.2.1 .symptomatic rfl⟩

/-- Dividing every element of a list by a constant divides its sum. -/
theorem sum_map_div (xs : List ℚ) (s : ℚ) :
    (xs.map (fun x => x / s)).sum = xs.sum / s := by
  induction xs with
  | nil => simp
  | cons a as ih => simp [ih, add_div]

/-- Counterexample to C8 as stated: on the flow list `[4, 6]`, which sums to
10 and not to 1, `_normalise` raises no error and silently rescales, returning
`[0.4, 0.6]`. -/
theorem claim_C8_counterexample :
    normalise (PyValue.list [4, 6]) = Except.ok [0.4, 0.6] := by
  simp only [normalise, List.length_cons, List.length_nil]
  norm_num

/-- C8 (amended): a per-individual flow-weight list that does not sum to 1 is
NOT rejected: `_normalise` silently rescales it by its sum (producing a
same-length list summing to 1); the only input it signals an error for is a
bare number in place of a list. -/
theorem claim_C8 :
    (∀ x : ℚ, normalise (.num x) = .error "can only normalise a list") ∧
    (∀ xs : List ℚ, xs.length ≠ 1 → xs.sum ≠ 0 →
      normalise (.list xs) = .ok (xs.map (fun x => x / xs.sum)) ∧
      (xs.map (fun x => x / xs.sum)).length = xs.length ∧
      (xs.map (fun x => x / xs.sum)).sum = 1) := by
  refine ⟨fun x => rfl, ?_⟩
  intro xs hlen hsum
  refine ⟨by simp [normalise, hlen], by simp, ?_⟩
  rw [sum_map_div, div_self hsum]

/-- Witness for C8 at the list `[4, 6]` and the bare number 3. -/
theorem claim_C8_witness :
    normalise (.num 3) = .error "can only normalise a list" ∧
    normalise (.list [4, 6]) =
      .ok ([4, 6].map (fun x => x / ([4, 6] : List ℚ).sum)) ∧
    (([4, 6] : List ℚ).map (fun x => x / ([4, 6] : List ℚ).sum)).sum = 1 :=
  ⟨claim_C8.1 3,
    (claim_C8.2 [4, 6] (by decide) (by norm_num)).1,
    (claim_C8.2 [4, 6] (by decide) (by norm_num)).2.2⟩

/-- C10: `_normalise` maps every single-element list to `[1.0]` whatever the
element, errors on a bare number, and rescales every longer list of positive
numbers to the same-length list of the inputs divided by their sum, which
sums to 1; for instance `[4, 6]` maps to `[0.4, 0.6]`. -/
theorem claim_C10 :
    (∀ x : ℚ, normalise (.list [x]) = .ok [1]) ∧
    (∀ x : ℚ, normalise (.num x) = .error "can only normalise a list") ∧
    (∀ xs : List ℚ, 2 ≤ xs.length → (∀ x ∈ xs, 0 < x) →
      normalise (.list xs) = .ok (xs.map (fun x => x / xs.sum)) ∧
      (xs.map (fun x => x / xs.sum)).length = xs.length ∧
      (xs.map (fun x => x / xs.sum)).sum = 1) := by
  refine ⟨fun x => rfl, fun x => rfl, ?_⟩
  intro xs hlen hpos
  have hne : xs ≠ [] := by
    intro h
    rw [h] at hlen
    exact absurd hlen (by decide)
  have hsum : xs.sum ≠ 0 := ne_of_gt (List.sum_pos xs hpos hne)
  have hlen1 : xs.length ≠ 1 := by omega
  refine ⟨by simp [normalise, hlen1], by simp, ?_⟩
  rw [sum_map_div, div_self hsum]

/-- Witness for C10 at `[5.3]`, the bare number 2 and the list `[4, 6]`. -/
theorem claim_C10_witness :
    normalise (.list [(5.3 : ℚ)]) = .ok [1] ∧
    normalise (.num 2) = .error "can only normalise a list" ∧
    normalise (.list [4, 6]) = .ok [0.4, 0.6] := by
  refine ⟨claim_C10.1 5.3, claim_C10.2.1 2, ?_⟩
  have h := (claim_C10.2.2 [4, 6] (by decide)
    (by intro x hx; simp only [List.mem_cons, List.not_mem_nil, or_false] at hx
        rcases hx with rfl | rfl <;> norm_num)).1
  rw [h]
  simp only [List.map_cons, List.map_nil, List.sum_cons, List.sum_nil]
  norm_num

/-- The generator transition is injective: no two states step to the same
state. -/
theorem rngStep_injective : Function.Injective rngStep := by
  intro a b h
  simp only [rngStep] at h
  have h2 := Nat.add_right_cancel h
  exact Nat.eq_of_mul_eq_mul_left (by norm_num) h2

/-- Two generators whose whole draw sequences agree were seeded alike. -/
theorem drawSequence_inj (s1 s2 : Nat)
    (h : drawSequence s1 = drawSequence s2) : s1 = s2 := by
  have h0 := congrFun h 0
  simp only [drawSequence, Function.iterate_one] at h0
  exact rngStep_injective h0

/-- C9: two instances constructed with the same explicit seed draw identical
sequences whatever their creation time and process; seedless instances
created with distinct (time, process id) entropy — as concurrent worker
processes are — draw pairwise distinct sequences. -/
theorem claim_C9 :
    (∀ s t1 p1 t2 p2 : Nat,
      drawSequence (instanceSeed (some s) t1 p1) =
        drawSequence (instanceSeed (some s) t2 p2)) ∧
    (∀ t1 p1 t2 p2 : Nat, (t1, p1) ≠ (t2, p2) →
      drawSequence (instanceSeed none t1 p1) ≠
        drawSequence (instanceSeed none t2 p2)) ∧
    (∀ ents : List (Nat × Nat), ents.Pairwise (· ≠ ·) →
      (ents.map (fun e => drawSequence (instanceSeed none e.1 e.2))).Pairwise
        (· ≠ ·)) := by
  have hdistinct : ∀ t1 p1 t2 p2 : Nat, (t1, p1) ≠ (t2, p2) →
      drawSequence (instanceSeed none t1 p1) ≠
        drawSequence (instanceSeed none t2 p2) := by
    intro t1 p1 t2 p2 hne hseq
    apply hne
    have hpair : Nat.pair t1 p1 = Nat.pair t2 p2 := drawSequence_inj _ _ hseq
    have h2 := Nat.pair_eq_pair.mp hpair
    exact Prod.ext_iff.mpr ⟨h2.1, h2.2⟩
  refine ⟨fun s t1 p1 t2 p2 => rfl, hdistinct, ?_⟩
  intro ents h
  rw [List.pairwise_map]
  refine List.Pairwise.imp ?_ h
  intro a b hab
  exact hdistinct a.1 a.2 b.1 b.2 (by simpa using hab)

/-- Witness for C9: seed 2 twice gives the same sequence; entropy (0,0) and
(0,1) give different sequences; three distinct entropies give pairwise
distinct sequences. -/
theorem claim_C9_witness :
    drawSequence (instanceSeed (some 2) 0 0) =
      drawSequence (instanceSeed (some 2) 5 7) ∧
    drawSequence (instanceSeed none 0 0) ≠
      drawSequence (instanceSeed none 0 1) ∧
    (([(0, 0), (0, 1), (1, 0)] : List (Nat × Nat)).map
      (fun e => drawSequence (instanceSeed none e.1 e.2))).Pairwise (· ≠ ·) :=
  ⟨claim_C9.1 2 0 0 5 7, claim_C9.2.1 0 0 0 1 (by decide),
    claim_C9.2.2 [(0, 0), (0, 1), (1, 0)] (by decide)⟩

end RampUA
